import Mathlib

set_option autoImplicit false

/-! Shallow embedding of the pytak transport core: the bounded-queue worker
backpressure policy (`pytak/classes.py`), the UDP datagram-stream wrapper
(`pytak/asyncio_dgram/aio.py`), and the transport factory
(`pytak/client_functions.py`).  Definitions are translated from the Python
source; theorems settle the specification claims about them. -/

/-- Byte payloads moved through the pipeline (Python `bytes`), modelled as
lists of byte values. -/
abbrev Payload := List Nat

/-- Model of a bounded `asyncio.Queue(maxsize)`.  As in asyncio, `maxsize = 0`
means unbounded.  `items` holds the queued payloads, oldest first. -/
structure BoundedQueue where
  maxsize : Nat
  items : List Payload
deriving DecidableEq

/-- Model of `asyncio.Queue.full()`: `False` when `maxsize <= 0`, otherwise
`qsize() >= maxsize`. -/
def BoundedQueue.full (q : BoundedQueue) : Bool :=
  decide (0 < q.maxsize) && decide (q.maxsize ≤ q.items.length)

/-- Warning text emitted by `Worker._handle_full_queue`
(`src/pytak/classes.py`), naming the capacity settings to raise. -/
def fullQueueWarning : String :=
  "Queue full, dropping oldest data. Consider raising MAX_IN_QUEUE or MAX_OUT_QUEUE see https://pytak.rtfd.io/"

/-- Model of `Worker._handle_full_queue`: remove the oldest queued item
(`queue.get()` / `queue.get_nowait()`) and emit `fullQueueWarning`. -/
def handleFullQueue (q : BoundedQueue) : BoundedQueue × String :=
  ({ q with items := q.items.tail }, fullQueueWarning)

/-- Model of `QueueWorker.put_queue`: if the target queue is full, first call
`Worker._handle_full_queue` (dropping the oldest item, with its warning), then
enqueue `data` at the back (`queue.put` cannot block at that point because one
slot was just freed).  Returns the new queue and the warning, if any. -/
def put_queue (q : BoundedQueue) (data : Payload) : BoundedQueue × Option String :=
  if q.full then
    let qw := handleFullQueue q
    ({ qw.1 with items := qw.1.items ++ [data] }, some qw.2)
  else
    ({ q with items := q.items ++ [data] }, none)

/-- Push each payload of `ds`, in order, through `QueueWorker.put_queue`
(warnings discarded). -/
def putQueueAll (q : BoundedQueue) (ds : List Payload) : BoundedQueue :=
  ds.foldl (fun q d => (put_queue q d).1) q

/-- Error raised by `asyncio.Queue.put_nowait` on a full queue. -/
inductive QueueError where
  | queueFull
deriving DecidableEq

/-- Model of `asyncio.Queue.put_nowait` as used by `RXWorker.run_once` to push
a received frame onto its queue: raises `QueueFull` when the queue is full,
otherwise enqueues at the back. -/
def rxPutNowait (q : BoundedQueue) (data : Payload) : Except QueueError BoundedQueue :=
  if q.full then .error .queueFull
  else .ok { q with items := q.items ++ [data] }

theorem put_queue_maxsize (q : BoundedQueue) (d : Payload) :
    ((put_queue q d).1).maxsize = q.maxsize := by
  unfold put_queue handleFullQueue
  split <;> rfl

theorem put_queue_items_of_full (q : BoundedQueue) (d : Payload)
    (h : q.full = true) :
    put_queue q d = ({ q with items := q.items.tail ++ [d] }, some fullQueueWarning) := by
  unfold put_queue handleFullQueue
  rw [h]
  rfl

theorem put_queue_items_of_not_full (q : BoundedQueue) (d : Payload)
    (h : q.full = false) :
    put_queue q d = ({ q with items := q.items ++ [d] }, none) := by
  unfold put_queue
  rw [h]
  rfl

theorem putQueueAll_items (ds : List Payload) (q : BoundedQueue)
    (hcap : 0 < q.maxsize) (hinv : q.items.length ≤ q.maxsize) :
    (putQueueAll q ds).items =
      (q.items ++ ds).drop (q.items.length + ds.length - q.maxsize) := by
  induction ds generalizing q with
  | nil =>
    simp only [putQueueAll, List.foldl_nil, List.append_nil, List.length_nil, Nat.add_zero]
    rw [Nat.sub_eq_zero_of_le hinv, List.drop_zero]
  | cons d ds ih =>
    have hstep : putQueueAll q (d :: ds) = putQueueAll (put_queue q d).1 ds := rfl
    by_cases hfull : q.maxsize ≤ q.items.length
    · have hlen : q.items.length = q.maxsize := le_antisymm hinv hfull
      have hne : q.items ≠ [] := by
        intro he
        rw [he] at hlen
        simp at hlen
        omega
      obtain ⟨a, t, hat⟩ := List.exists_cons_of_ne_nil hne
      have hf : q.full = true := by
        simp [BoundedQueue.full, hfull, hcap]
      rw [hstep, put_queue_items_of_full q d hf]
      have htlen : t.length + 1 = q.maxsize := by
        rw [hat] at hlen
        simpa using hlen
      have h2 : (t ++ [d]).length ≤ q.maxsize := by
        simp
        omega
      have := ih { q with items := q.items.tail ++ [d] } (by simpa using hcap)
        (by simpa [hat] using h2)
      rw [this]
      simp only [hat]
      simp only [List.tail_cons, List.length_append, List.length_cons, List.cons_append,
        List.length_nil]
      have hidx1 : t.length + (0 + 1) + ds.length - q.maxsize = ds.length := by omega
      have hidx2 : t.length + 1 + (ds.length + 1) - q.maxsize = ds.length + 1 := by omega
      rw [hidx1, hidx2]
      rw [List.drop_succ_cons]
      simp [List.append_assoc]
    · have hf : q.full = false := by
        simp [BoundedQueue.full]
        omega
      rw [hstep, put_queue_items_of_not_full q d hf]
      have := ih { q with items := q.items ++ [d] } (by simpa using hcap)
        (by simp; omega)
      rw [this]
      simp only [List.length_append, List.length_cons, List.length_nil, List.append_assoc,
        List.cons_append, List.nil_append]
      congr 1
      omega

/-- C1: pushing N+1 payloads through `QueueWorker.put_queue` onto a bounded
queue of capacity N (holding at most N items, in particular a fresh empty
queue) leaves exactly N payloads: payload #1 has been evicted and payloads
#2..N+1 are retained in FIFO order; moreover, whenever the target queue is at
capacity, `put_queue` evicts exactly the oldest entry, emitting the warning
that names the capacity settings, before admitting the new entry. -/
theorem put_queue_backpressure_c1 (N : Nat) (q : BoundedQueue) (ds : List Payload)
    (hN : 0 < N) (hcap : q.maxsize = N) (hinv : q.items.length ≤ N)
    (hds : ds.length = N + 1) :
    (putQueueAll q ds).items = ds.tail ∧
    (putQueueAll q ds).items.length = N ∧
    (∀ (p : BoundedQueue) (d : Payload), p.full = true →
      put_queue p d = ({ p with items := p.items.tail ++ [d] }, some fullQueueWarning)) := by
  have hmain := putQueueAll_items ds q (by omega) (by omega)
  have hidx : q.items.length + ds.length - q.maxsize = q.items.length + 1 := by omega
  rw [hidx, List.drop_append 1] at hmain
  have htail : ds.drop 1 = ds.tail := List.drop_one ds
  rw [htail] at hmain
  refine ⟨hmain, ?_, fun p d hp => put_queue_items_of_full p d hp⟩
  rw [hmain]
  have : ds.tail.length = ds.length - 1 := List.length_tail ds
  omega

/-- Witness for C1 at N = 2 with payloads `[1]`, `[2]`, `[3]` pushed onto an
empty queue of capacity 2. -/
theorem put_queue_backpressure_c1_witness :
    (putQueueAll ⟨2, []⟩ [[1], [2], [3]]).items = [[1], [2], [3]].tail ∧
    (putQueueAll ⟨2, []⟩ [[1], [2], [3]]).items.length = 2 ∧
    (∀ (p : BoundedQueue) (d : Payload), p.full = true →
      put_queue p d = ({ p with items := p.items.tail ++ [d] }, some fullQueueWarning)) :=
  put_queue_backpressure_c1 2 ⟨2, []⟩ [[1], [2], [3]] (by decide) rfl (by decide) (by decide)

/-- C7 counterexample: `RXWorker.run_once` pushes a received frame with
`queue.put_nowait`, which raises `QueueFull` on a full queue instead of
resolving the overflow locally by evicting the oldest entry.  Concretely, a
queue of capacity 1 already holding one frame makes the RX push raise. -/
theorem rx_push_full_queue_raises_c7 :
    rxPutNowait ⟨1, [[0]]⟩ [1] = .error .queueFull ∧
    (rxPutNowait ⟨1, [[0]]⟩ [1]).isOk = false := by
  constructor <;> rfl

/-- C7 (amended): `QueueWorker.put_queue` resolves a full queue locally without
raising — it evicts exactly the oldest entry before admitting the new one —
and neither core push ever brings a bounded queue above its configured
capacity; but `RXWorker`'s push (`queue.put_nowait`) raises `QueueFull` on a
full queue rather than evicting (the frame is simply not admitted, so the
capacity bound still holds). -/
theorem queue_pushes_bounded_c7 (q : BoundedQueue) (d : Payload)
    (hcap : 0 < q.maxsize) (hinv : q.items.length ≤ q.maxsize) :
    ((put_queue q d).1).items.length ≤ q.maxsize ∧
    (q.full = true →
      put_queue q d = ({ q with items := q.items.tail ++ [d] }, some fullQueueWarning)) ∧
    (q.full = true → rxPutNowait q d = .error .queueFull) ∧
    (q.full = false → rxPutNowait q d = .ok { q with items := q.items ++ [d] }) ∧
    (∀ q', rxPutNowait q d = .ok q' → q'.items.length ≤ q.maxsize) := by
  refine ⟨?_, fun hf => put_queue_items_of_full q d hf, ?_, ?_, ?_⟩
  · by_cases hf : q.full = true
    · rw [put_queue_items_of_full q d hf]
      have hne : q.items ≠ [] := by
        intro he
        simp [BoundedQueue.full, he] at hf
        omega
      have : q.items.tail.length = q.items.length - 1 := List.length_tail q.items
      have hpos : 0 < q.items.length := List.length_pos.mpr hne
      simp
      omega
    · have hf' : q.full = false := by
        revert hf
        cases q.full <;> simp
      rw [put_queue_items_of_not_full q d hf']
      have hlt : q.items.length < q.maxsize := by
        by_contra hge
        have hge' : q.maxsize ≤ q.items.length := by omega
        simp [BoundedQueue.full, hcap, hge'] at hf'
      simp
      omega
  · intro hf
    simp [rxPutNowait, hf]
  · intro hf
    simp [rxPutNowait, hf]
  · intro q' hq'
    by_cases hf : q.full = true
    · simp [rxPutNowait, hf] at hq'
    · have hf' : q.full = false := by
        revert hf
        cases q.full <;> simp
      simp [rxPutNowait, hf'] at hq'
      have hlt : q.items.length < q.maxsize := by
        by_contra hge
        have hge' : q.maxsize ≤ q.items.length := by omega
        simp [BoundedQueue.full, hcap, hge'] at hf'
      rw [← hq']
      simp
      omega

/-- Witness for the amended C7 at a concrete full queue of capacity 1. -/
theorem queue_pushes_bounded_c7_witness :
    ((put_queue ⟨1, [[0]]⟩ [1]).1).items.length ≤ 1 ∧
    ((⟨1, [[0]]⟩ : BoundedQueue).full = true →
      put_queue ⟨1, [[0]]⟩ [1] =
        ({ maxsize := 1, items := ([[0]] : List Payload).tail ++ [[1]] }, some fullQueueWarning)) ∧
    ((⟨1, [[0]]⟩ : BoundedQueue).full = true →
      rxPutNowait ⟨1, [[0]]⟩ [1] = .error .queueFull) ∧
    ((⟨1, [[0]]⟩ : BoundedQueue).full = false →
      rxPutNowait ⟨1, [[0]]⟩ [1] = .ok { maxsize := 1, items := [[0]] ++ [[1]] }) ∧
    (∀ q', rxPutNowait ⟨1, [[0]]⟩ [1] = .ok q' → q'.items.length ≤ 1) :=
  queue_pushes_bounded_c7 ⟨1, [[0]]⟩ [1] (by decide) (by decide)

/-- Bytes carried by one datagram. -/
abbrev Dgram := List Nat

/-- Remote address of a datagram peer, as a host and port. -/
abbrev Addr := String × Nat

/-- Exception noticed by the datagram protocol, modelled by its message. -/
abbrev Exc := String

/-- Model of the asyncio `DatagramTransport` handle owned by a stream:
`close()` marks it closing (idempotently, per the asyncio contract) and
`is_closing()` reads the flag. -/
structure Transport where
  closing : Bool
deriving DecidableEq

/-- Model of `DatagramTransport.close()`. -/
def Transport.close (_t : Transport) : Transport := { closing := true }

/-- State shared between a `DatagramStream` and its `Protocol` callback
adapter (`pytak/asyncio_dgram/aio.py`): the transport handle, the
inbound-datagram queue `recvq` (entries `(data, addr)`, with `data = none`
standing for the `(None, None)` close sentinel), the error queue `excq`, the
`drained` event, the list of datagrams handed to `transport.sendto` (so that
writes are observable), and whether the protocol adapter still holds its
transport reference. -/
structure DatagramStreamState where
  transport : Transport
  recvq : List (Option Dgram × Option Addr)
  excq : List Exc
  drained : Bool
  sent : List (Dgram × Option Addr)
  protoHasTransport : Bool
deriving DecidableEq

/-- Outcome of one `DatagramStream.send` call. -/
inductive SendOutcome where
  | transportClosed
  | raised (e : Exc)
  | wrote (resumedImmediately : Bool)
deriving DecidableEq

/-- Model of `DatagramStream.send(data, addr)`: raise `TransportClosed` if the
transport is already shutting down; otherwise consult the `exception`
property, which pops and re-raises the earliest queued error before anything
is written; otherwise hand the datagram to `transport.sendto` and await the
`drained` event — the caller resumes immediately exactly when `drained` is
already set, and otherwise stays suspended until `resume_writing` sets it. -/
def streamSend (s : DatagramStreamState) (data : Dgram) (addr : Option Addr) :
    SendOutcome × DatagramStreamState :=
  if s.transport.closing then (.transportClosed, s)
  else
    match s.excq with
    | e :: rest => (.raised e, { s with excq := rest })
    | [] => (.wrote s.drained, { s with sent := s.sent ++ [(data, addr)] })

/-- Outcome of one `DatagramStream.recv` call. -/
inductive RecvOutcome where
  | transportClosed
  | raised (e : Exc)
  | got (data : Dgram) (addr : Option Addr)
  | waiting
deriving DecidableEq

/-- Model of `DatagramStream.recv()`: raise `TransportClosed` if the transport
is shutting down; otherwise pop and re-raise the earliest queued error;
otherwise dequeue from the inbound queue (suspending while it is empty,
modelled by the `waiting` outcome); a dequeued close sentinel (`data = none`)
is translated into `TransportClosed` instead of being returned as data. -/
def streamRecv (s : DatagramStreamState) : RecvOutcome × DatagramStreamState :=
  if s.transport.closing then (.transportClosed, s)
  else
    match s.excq with
    | e :: rest => (.raised e, { s with excq := rest })
    | [] =>
      match s.recvq with
      | [] => (.waiting, s)
      | (none, _) :: rest => (.transportClosed, { s with recvq := rest })
      | (some d, a) :: rest => (.got d a, { s with recvq := rest })

/-- Model of `DatagramStream.close()`: close the underlying transport. -/
def streamClose (s : DatagramStreamState) : DatagramStreamState :=
  { s with transport := s.transport.close }

/-- Model of `Protocol.connection_lost(exc)`: push the final error (if any)
onto the error queue, then push the `(None, None)` close sentinel onto the
inbound queue (to unblock any pending receiver), then close and release the
protocol's transport reference if it still holds one. -/
def connectionLost (s : DatagramStreamState) (exc : Option Exc) : DatagramStreamState :=
  let s1 := { s with excq := s.excq ++ exc.toList, recvq := s.recvq ++ [(none, none)] }
  if s.protoHasTransport then
    { s1 with transport := s1.transport.close, protoHasTransport := false }
  else s1

/-- Model of `Protocol.error_received(exc)`: errors accumulate on the error
queue without blocking. -/
def errorReceived (s : DatagramStreamState) (e : Exc) : DatagramStreamState :=
  { s with excq := s.excq ++ [e] }

/-- Model of `Protocol.datagram_received(data, addr)`. -/
def datagramReceived (s : DatagramStreamState) (d : Dgram) (a : Addr) : DatagramStreamState :=
  { s with recvq := s.recvq ++ [(some d, some a)] }

/-- Model of `Protocol.pause_writing` and `Protocol.resume_writing`: they
clear, respectively set, the drained event. -/
def pauseWriting (s : DatagramStreamState) : DatagramStreamState :=
  { s with drained := false }

/-- Model of `Protocol.resume_writing`. -/
def resumeWriting (s : DatagramStreamState) : DatagramStreamState :=
  { s with drained := true }

/-- C2: `DatagramStream.send`: when the transport is already shutting down the
call fails with `TransportClosed`; otherwise, when the error queue is
non-empty, it re-raises the earliest queued error before writing anything (no
datagram reaches the transport); otherwise it writes the datagram and then
suspends the caller until the drained signal is set (resuming immediately
exactly when it is already set). -/
theorem stream_send_c2 (s : DatagramStreamState) (data : Dgram) (addr : Option Addr) :
    (s.transport.closing = true → streamSend s data addr = (.transportClosed, s)) ∧
    (∀ e rest, s.transport.closing = false → s.excq = e :: rest →
      streamSend s data addr = (.raised e, { s with excq := rest })) ∧
    (s.transport.closing = false → s.excq = [] →
      streamSend s data addr =
        (.wrote s.drained, { s with sent := s.sent ++ [(data, addr)] })) := by
  refine ⟨fun hc => ?_, fun e rest hc he => ?_, fun hc he => ?_⟩
  · simp [streamSend, hc]
  · simp [streamSend, hc, he]
  · simp [streamSend, hc, he]

/-- Witness for C2: a closing stream, a stream with two queued errors, and a
clean drained stream, each driven through `streamSend`. -/
theorem stream_send_c2_witness :
    streamSend ⟨⟨true⟩, [], [], true, [], true⟩ [7] none =
      (.transportClosed, ⟨⟨true⟩, [], [], true, [], true⟩) ∧
    streamSend ⟨⟨false⟩, [], ["refused", "later"], true, [], true⟩ [7] none =
      (.raised "refused", ⟨⟨false⟩, [], ["later"], true, [], true⟩) ∧
    streamSend ⟨⟨false⟩, [], [], true, [], true⟩ [7] (some ("h", 1)) =
      (.wrote true, ⟨⟨false⟩, [], [], true, [([7], some ("h", 1))], true⟩) := by
  refine ⟨(stream_send_c2 _ [7] none).1 rfl, ?_, ?_⟩
  · exact (stream_send_c2 ⟨⟨false⟩, [], ["refused", "later"], true, [], true⟩ [7] none).2.1
      "refused" ["later"] rfl rfl
  · exact (stream_send_c2 ⟨⟨false⟩, [], [], true, [], true⟩ [7] (some ("h", 1))).2.2 rfl rfl

/-- C3: `DatagramStream.recv`: fails with `TransportClosed` when the transport
is shutting down; re-raises the earliest queued error before waiting;
otherwise suspends until a datagram is available; a dequeued close sentinel
`(None, None)` — which `Protocol.connection_lost` pushes onto the inbound
queue after pushing any final error onto the error queue, before releasing the
transport handle — makes `recv` raise `TransportClosed` instead of returning
data. -/
theorem stream_recv_c3 (s : DatagramStreamState) :
    (s.transport.closing = true → streamRecv s = (.transportClosed, s)) ∧
    (∀ e rest, s.transport.closing = false → s.excq = e :: rest →
      streamRecv s = (.raised e, { s with excq := rest })) ∧
    (s.transport.closing = false → s.excq = [] → s.recvq = [] →
      streamRecv s = (.waiting, s)) ∧
    (∀ a rest, s.transport.closing = false → s.excq = [] → s.recvq = (none, a) :: rest →
      streamRecv s = (.transportClosed, { s with recvq := rest })) ∧
    (∀ d a rest, s.transport.closing = false → s.excq = [] → s.recvq = (some d, a) :: rest →
      streamRecv s = (.got d a, { s with recvq := rest })) ∧
    (∀ exc, (connectionLost s exc).excq = s.excq ++ exc.toList ∧
      (connectionLost s exc).recvq = s.recvq ++ [(none, none)] ∧
      (connectionLost s exc).protoHasTransport = false) := by
  refine ⟨fun hc => ?_, fun e rest hc he => ?_, fun hc he hr => ?_,
    fun a rest hc he hr => ?_, fun d a rest hc he hr => ?_, fun exc => ?_⟩
  · simp [streamRecv, hc]
  · simp [streamRecv, hc, he]
  · simp [streamRecv, hc, he, hr]
  · simp [streamRecv, hc, he, hr]
  · simp [streamRecv, hc, he, hr]
  · unfold connectionLost
    by_cases hp : s.protoHasTransport <;> simp [hp]

/-- Witness for C3: each `recv` branch and the `connection_lost` callback
evaluated on concrete stream states. -/
theorem stream_recv_c3_witness :
    streamRecv ⟨⟨true⟩, [], [], true, [], true⟩ =
      (.transportClosed, ⟨⟨true⟩, [], [], true, [], true⟩) ∧
    streamRecv ⟨⟨false⟩, [(some [1], some ("p", 2))], ["refused"], true, [], true⟩ =
      (.raised "refused", ⟨⟨false⟩, [(some [1], some ("p", 2))], [], true, [], true⟩) ∧
    streamRecv ⟨⟨false⟩, [], [], true, [], true⟩ =
      (.waiting, ⟨⟨false⟩, [], [], true, [], true⟩) ∧
    streamRecv ⟨⟨false⟩, [(none, none)], [], true, [], true⟩ =
      (.transportClosed, ⟨⟨false⟩, [], [], true, [], true⟩) ∧
    streamRecv ⟨⟨false⟩, [(some [1], some ("p", 2))], [], true, [], true⟩ =
      (.got [1] (some ("p", 2)), ⟨⟨false⟩, [], [], true, [], true⟩) ∧
    (connectionLost ⟨⟨false⟩, [], [], true, [], true⟩ (some "reset")).excq = [] ++ ["reset"] ∧
    (connectionLost ⟨⟨false⟩, [], [], true, [], true⟩ (some "reset")).recvq =
      [] ++ [(none, none)] ∧
    (connectionLost ⟨⟨false⟩, [], [], true, [], true⟩ (some "reset")).protoHasTransport = false := by
  have hlost := (stream_recv_c3 ⟨⟨false⟩, [], [], true, [], true⟩).2.2.2.2.2 (some "reset")
  refine ⟨(stream_recv_c3 _).1 rfl, ?_, (stream_recv_c3 _).2.2.1 rfl rfl rfl, ?_, ?_,
    hlost.1, hlost.2.1, hlost.2.2⟩
  · exact (stream_recv_c3 ⟨⟨false⟩, [(some [1], some ("p", 2))], ["refused"], true, [], true⟩).2.1
      "refused" [] rfl rfl
  · exact (stream_recv_c3 ⟨⟨false⟩, [(none, none)], [], true, [], true⟩).2.2.2.1
      none [] rfl rfl rfl
  · exact (stream_recv_c3 ⟨⟨false⟩, [(some [1], some ("p", 2))], [], true, [], true⟩).2.2.2.2.1
      [1] (some ("p", 2)) [] rfl rfl rfl

/-- C9: `DatagramStream.close` is idempotent: a second `close()` raises no
error (the model is a total state update) and leaves the stream in the same
closed state; the transport reports closing after a close. -/
theorem stream_close_idempotent_c9 (s : DatagramStreamState) :
    streamClose (streamClose s) = streamClose s ∧
    (streamClose s).transport.closing = true := by
  constructor <;> rfl

/-- Strings manipulated by the factory model, as lists of characters.  The
Python code needs only simple character-level operations, which are modelled
by structurally recursive functions so that concrete inputs evaluate. -/
abbrev Str := List Char

/-- Model of the Python `in` operator on strings (substring test; an empty
needle is contained in everything). -/
def strContains (hay needle : Str) : Bool :=
  match hay with
  | [] => needle.isEmpty
  | c :: t => needle.isPrefixOf (c :: t) || strContains t needle

/-- Split at the first occurrence of the (non-empty) separator, if present. -/
def splitFirst (sep : Str) : Str → Option (Str × Str)
  | [] => none
  | c :: t =>
    if sep.isPrefixOf (c :: t) then some ([], (c :: t).drop sep.length)
    else
      match splitFirst sep t with
      | none => none
      | some p => some (c :: p.1, p.2)

/-- Model of Python `str.split(sep)` for a one-character separator: the list
of (possibly empty) fields. -/
def splitChar (sep : Char) (s : Str) : List Str :=
  s.foldr
    (fun c acc =>
      match acc with
      | [] => [[c]]
      | a :: rest => if c = sep then [] :: a :: rest else (c :: a) :: rest)
    [[]]

/-- Model of `str.lower()` (ASCII is all the source needs). -/
def strLower (s : Str) : Str :=
  s.map Char.toLower

/-- Model of Python `int(s)` on plain decimal strings: defined exactly on
non-empty all-digit strings, `ValueError` (`none`) otherwise. -/
def strToNat (s : Str) : Option Nat :=
  if !s.isEmpty && s.all Char.isDigit then
    some (s.foldl (fun n c => n * 10 + (c.toNat - 48)) 0)
  else none

/-- Parse one dotted-quad octet the way `ipaddress` does: one to three
decimal digits, no leading zero unless the octet is exactly "0", and a value
of at most 255. -/
def parseOctet (s : Str) : Option Nat :=
  if s.isEmpty || decide (3 < s.length) || !s.all Char.isDigit then none
  else if decide (1 < s.length) && decide (s.headD '0' = '0') then none
  else
    match strToNat s with
    | some n => if n ≤ 255 then some n else none
    | none => none

/-- Model of `ipaddress.ip_address` restricted to IPv4 dotted-quad literals;
any other string — in particular a DNS name — raises `ValueError`, modelled
as `none`.  (IPv6 literals are outside the model.) -/
def parseIPv4 (s : Str) : Option (Nat × Nat × Nat × Nat) :=
  match splitChar '.' s with
  | [a, b, c, d] =>
    match parseOctet a, parseOctet b, parseOctet c, parseOctet d with
    | some x, some y, some z, some w => some (x, y, z, w)
    | _, _, _, _ => none
  | _ => none

/-- Model of the guarded multicast probe used in `create_udp_client` and
`TXWorker.send_data`: `ipaddress.ip_address(host).is_multicast` inside
`try/except ValueError`, defaulting to False — an IPv4 literal is multicast
when its first octet lies in 224..239, and a non-IP host is non-multicast. -/
def hostIsMulticast (host : Str) : Bool :=
  match parseIPv4 host with
  | some (a, _, _, _) => decide (224 ≤ a) && decide (a ≤ 239)
  | none => false

/-- Scheme validity as in `urllib.parse`: a scheme starts with a letter and
continues with letters, digits, or one of `+`, `-`, `.`; otherwise the URL is
parsed as having no scheme (and hence no netloc). -/
def validScheme (s : Str) : Bool :=
  match s with
  | [] => false
  | c :: t => c.isAlpha && t.all (fun d => d.isAlphanum || d = '+' || d = '-' || d = '.')

/-- Parsed destination descriptor: the (lowercased) scheme — empty when the
text before "://" is not a valid scheme — and the network-location part. -/
structure CotUrl where
  scheme : Str
  netloc : Str
deriving DecidableEq

/-- Model of `urllib.parse.urlparse` on descriptors that contain "://" (the
only shape reaching it after `get_cot_url`'s separator check): the text
before the first "://" is the scheme when its characters are valid scheme
characters, and the netloc then runs up to the next "/"; an invalid scheme
yields an empty scheme and netloc.  Returns `none` when "://" is absent. -/
def urlparseModel (url : Str) : Option CotUrl :=
  match splitFirst (':' :: '/' :: '/' :: []) url with
  | none => none
  | some p =>
    if validScheme p.1 then some ⟨strLower p.1, p.2.takeWhile (fun c => c ≠ '/')⟩
    else some ⟨[], []⟩

/-- Errors surfaced by the factory model: `syntaxError` is the
configuration-error kind the source raises as `SyntaxError`; `valueError`
models `ValueError` (from `int()` and tuple unpacking in `parse_url` and from
IPv4 conversion); `nameError` models Python `NameError`; `systemError`
models `SystemError`. -/
inductive FactoryError where
  | syntaxError (msg : Str)
  | valueError (msg : Str)
  | nameError (msg : Str)
  | systemError (msg : Str)
deriving DecidableEq

deriving instance DecidableEq for Except

/-- Default destination from `pytak/constants.py`. -/
def DEFAULT_COT_URL : Str := "udp+wo://239.2.3.1:6969".toList

/-- Default stream-family port from `pytak/constants.py`. -/
def DEFAULT_COT_PORT : Nat := 8087

/-- Default broadcast-family port from `pytak/constants.py`. -/
def DEFAULT_BROADCAST_PORT : Nat := 6969

/-- Model of `get_cot_url`: the configured COT_URL (or the default) must
contain the "://" separator, else `SyntaxError`; it is then parsed. -/
def get_cot_url (cotUrlCfg : Option Str) : Except FactoryError CotUrl :=
  match urlparseModel (cotUrlCfg.getD DEFAULT_COT_URL) with
  | none =>
    .error (.syntaxError ("Specify COT_URL as a full URL. For example: tcp://tak.example.com:1234".toList))
  | some u => .ok u

/-- Model of `pytak.parse_url` applied to a parsed descriptor: the host is
the netloc up to an optional single ":"; the explicit port must be numeric;
without one, broadcast/multicast schemes default to 6969 and everything else
to 8087.  A netloc with two or more ":" fails the two-element tuple
unpacking, and a non-numeric port fails `int()`, both with `ValueError`. -/
def parse_url (u : CotUrl) : Except FactoryError (Str × Nat) :=
  match splitChar ':' u.netloc with
  | [h] =>
    if strContains u.scheme ("broadcast".toList) then .ok (h, DEFAULT_BROADCAST_PORT)
    else if strContains u.scheme ("multicast".toList) then .ok (h, DEFAULT_BROADCAST_PORT)
    else .ok (h, DEFAULT_COT_PORT)
  | [h, p] =>
    match strToNat p with
    | some n => .ok (h, n)
    | none => .error (.valueError ("invalid literal for int() with base 10: ".toList ++ p))
  | _ => .error (.valueError ("too many values to unpack".toList))

/-- Model of `ParseResult.hostname`: the netloc after the last "@" and before
":", lowercased; `none` when empty. -/
def urlHostname (u : CotUrl) : Option Str :=
  let afterAt := (splitChar '@' u.netloc).getLastD []
  let h := (splitChar ':' afterAt).headD []
  if h.isEmpty then none else some (strLower h)

/-- Configuration slice consumed by the transport factory
(`client_functions.py`).  Values are the configured strings; an absent or
empty (falsy) value is `none`, matching how `get_tls_config` filters falsy
values and how the source tests truthiness.  The two `DONT_*` overrides are
read with `getboolean`. -/
structure FactoryConfig where
  cotUrl : Option Str
  tlsClientCert : Option Str
  tlsClientKey : Option Str
  tlsClientCafile : Option Str
  tlsClientCiphers : Option Str
  tlsClientPassword : Option Str
  tlsDontVerify : Bool
  tlsDontCheckHostname : Bool
  enrollmentUsername : Option Str
  enrollmentPassword : Option Str
  enrollmentPassphrase : Option Str

/-- External environment of the factory: which filesystem paths exist, the
temporary PKCS#12 path the enrollment collaborator writes (created by
`tempfile`), and the PEM paths the external `convert_cert` extracts from a
PKCS#12 file. -/
structure FactoryEnv where
  fileExists : Str → Bool
  enrollCertPath : Str
  convertCertPem : Str → Str
  convertKeyPem : Str → Str

/-- Observable outcome of `get_ssl_ctx`: whether hostname checking and chain
verification remain enabled after the two overrides. -/
structure SslCtx where
  checkHostname : Bool
  verifyRequired : Bool
deriving DecidableEq

/-- Model of `get_ssl_ctx`.  The client certificate is required: an absent
value raises `SyntaxError("Missing value: PYTAK_TLS_CLIENT_CERT")` and a
non-existent path raises `SyntaxError("Resource not found: ...")`; a
configured client key naming a non-existent path likewise raises
`SyntaxError`.  A certificate ending in ".p12" is converted to PEM by the
external `convert_cert`, guarded by a `SystemError` when the extracted
certificate is missing while the extracted key exists.  Building the ssl
context, loading the chain and the CA file are external operations abstracted
as succeeding; the two overrides relax hostname checking (either override)
and chain verification (`PYTAK_TLS_DONT_VERIFY`). -/
def get_ssl_ctx (env : FactoryEnv) (cfg : FactoryConfig) (clientCert : Option Str) :
    Except FactoryError SslCtx :=
  let dontCheckHostname := cfg.tlsDontVerify || cfg.tlsDontCheckHostname
  match clientCert with
  | none => .error (.syntaxError ("Missing value: PYTAK_TLS_CLIENT_CERT".toList))
  | some cert =>
    if !env.fileExists cert then
      .error (.syntaxError ("Resource not found: PYTAK_TLS_CLIENT_CERT=".toList ++ cert))
    else
      match cfg.tlsClientKey with
      | some key =>
        if !env.fileExists key then
          .error (.syntaxError ("Resource not found: PYTAK_TLS_CLIENT_KEY=".toList ++ key))
        else
          if (".p12".toList).isSuffixOf cert &&
              (!env.fileExists (env.convertCertPem cert) &&
                env.fileExists (env.convertKeyPem cert)) then
            .error (.systemError ("Missing PKCS#12 extracted files".toList))
          else
            .ok { checkHostname := !dontCheckHostname, verifyRequired := !cfg.tlsDontVerify }
      | none =>
        if (".p12".toList).isSuffixOf cert &&
            (!env.fileExists (env.convertCertPem cert) &&
              env.fileExists (env.convertKeyPem cert)) then
          .error (.systemError ("Missing PKCS#12 extracted files".toList))
        else
          .ok { checkHostname := !dontCheckHostname, verifyRequired := !cfg.tlsDontVerify }

/-- Model of `create_tls_client` up to the network connection: `parse_url`
runs first (its `ValueError` pre-empts everything), then `get_tls_config`
(whose required-parameter check is vacuous because `DEFAULT_TLS_PARAMS_REQ`
is the empty tuple in `constants.py`), then — when both enrollment
credentials are configured — the external enrollment collaborator replaces
the client certificate with the temporary PKCS#12 it wrote, and finally
`get_ssl_ctx`.  The TLS handshake itself is abstracted as succeeding. -/
def create_tls_client (env : FactoryEnv) (cfg : FactoryConfig) (u : CotUrl) :
    Except FactoryError SslCtx :=
  match parse_url u with
  | .error e => .error e
  | .ok _ =>
    let enrolling := cfg.enrollmentUsername.isSome && cfg.enrollmentPassword.isSome
    let effCert := if enrolling then some env.enrollCertPath else cfg.tlsClientCert
    get_ssl_ctx env cfg effCert

/-- Socket options set on one UDP endpoint by `create_udp_client`. -/
structure UdpSock where
  broadcast : Bool
  reuseaddr : Bool
  reuseport : Bool
  multicastTtlSet : Bool
  multicastMember : Bool
deriving DecidableEq

/-- Model of `create_udp_client`: the writer is a connected datagram client
(SO_BROADCAST for broadcast schemes, multicast TTL for multicast
destinations); a "+wo" scheme skips reader setup entirely and returns an
absent reader; otherwise the reader is a datagram socket bound to the
destination port (SO_BROADCAST for broadcast, SO_REUSEADDR/SO_REUSEPORT for
broadcast or multicast, and — for multicast — joined to the group, which
converts the host with `ipaddress.IPv4Address` and so raises `ValueError` for
a non-IPv4 host).  Multicast-ness is the scheme marker or the auto-detected
multicast host.  Socket creation itself is abstracted as succeeding, and the
caller-supplied local interface address is taken as valid. -/
def create_udp_client (u : CotUrl) : Except FactoryError (Option UdpSock × UdpSock) :=
  match parse_url u with
  | .error e => .error e
  | .ok hp =>
    let host := hp.1
    let isWriteOnly := strContains u.scheme ("+wo".toList)
    let isBroadcast := strContains u.scheme ("broadcast".toList)
    let isMulticast := strContains u.scheme ("multicast".toList) || hostIsMulticast host
    let writer : UdpSock :=
      { broadcast := isBroadcast, reuseaddr := false, reuseport := false,
        multicastTtlSet := isMulticast, multicastMember := false }
    if isWriteOnly then .ok (none, writer)
    else if isMulticast && (parseIPv4 host).isNone then
      .error (.valueError ("Expected 4 octets in host".toList))
    else
      .ok
        (some
          { broadcast := isBroadcast, reuseaddr := isBroadcast || isMulticast,
            reuseport := isBroadcast || isMulticast, multicastTtlSet := false,
            multicastMember := isMulticast },
          writer)

/-- Reader half of a TransportEndpoint. -/
inductive ReaderHalf where
  | tcpStream
  | tlsStream (ctx : SslCtx)
  | udp (sock : UdpSock)
deriving DecidableEq

/-- Writer half of a TransportEndpoint. -/
inductive WriterHalf where
  | tcpStream
  | tlsStream (ctx : SslCtx)
  | udp (sock : UdpSock)
  | stdoutBuffer
  | stderrBuffer
deriving DecidableEq

/-- Message of the fall-through `SyntaxError` raised when no branch built a
reader or a writer. -/
def invalidProtocolMsg : Str :=
  "Invalid COT_URL protocol specified. See: https://pytak.rtfd.io/en/stable/configuration/".toList

/-- Model of `protocol_factory` (`src/pytak/client_functions.py`): parse and
check the descriptor via `get_cot_url`, then dispatch on the scheme — exact
match for "tcp", exact match for "tls"/"ssl", substring match for "udp",
"log" and "file", in that order.  The "log" scheme writes to the process
stderr buffer when the hostname contains "stderr", else to stdout, and
builds no writer when the hostname is empty; the "file" branch evaluates the
name `Path`, which `client_functions.py` never imports, so it raises
`NameError` before opening anything.  When no branch produced a reader or a
writer the fall-through `SyntaxError` is raised.  Network connections
(`open_connection`, datagram endpoints) are abstracted as succeeding. -/
def protocol_factory (env : FactoryEnv) (cfg : FactoryConfig) :
    Except FactoryError (Option ReaderHalf × Option WriterHalf) :=
  match get_cot_url cfg.cotUrl with
  | .error e => .error e
  | .ok u =>
    if u.scheme = "tcp".toList then
      match parse_url u with
      | .error e => .error e
      | .ok _ => .ok (some .tcpStream, some .tcpStream)
    else if u.scheme = "tls".toList ∨ u.scheme = "ssl".toList then
      match create_tls_client env cfg u with
      | .error e => .error e
      | .ok ctx => .ok (some (.tlsStream ctx), some (.tlsStream ctx))
    else if strContains u.scheme ("udp".toList) then
      match create_udp_client u with
      | .error e => .error e
      | .ok rw => .ok (rw.1.map .udp, some (.udp rw.2))
    else if strContains u.scheme ("log".toList) then
      match urlHostname u with
      | some dest =>
        if strContains dest ("stderr".toList) then .ok (none, some .stderrBuffer)
        else .ok (none, some .stdoutBuffer)
      | none => .error (.syntaxError invalidProtocolMsg)
    else if strContains u.scheme ("file".toList) then
      .error (.nameError ("name Path is not defined".toList))
    else .error (.syntaxError invalidProtocolMsg)

/-- A factory configuration with only the destination URL set. -/
def cfgWithUrl (url : Str) : FactoryConfig :=
  { cotUrl := some url, tlsClientCert := none, tlsClientKey := none,
    tlsClientCafile := none, tlsClientCiphers := none, tlsClientPassword := none,
    tlsDontVerify := false, tlsDontCheckHostname := false,
    enrollmentUsername := none, enrollmentPassword := none, enrollmentPassphrase := none }

/-- An environment in which exactly `cert.pem` exists. -/
def envCertOnly : FactoryEnv :=
  { fileExists := fun p => decide (p = "cert.pem".toList),
    enrollCertPath := "enroll.p12".toList,
    convertCertPem := fun _ => "conv-cert.pem".toList,
    convertKeyPem := fun _ => "conv-key.pem".toList }

/-- An environment in which exactly `cert.pem` and `key.pem` exist. -/
def envCertAndKey : FactoryEnv :=
  { fileExists := fun p => decide (p = "cert.pem".toList) || decide (p = "key.pem".toList),
    enrollCertPath := "enroll.p12".toList,
    convertCertPem := fun _ => "conv-cert.pem".toList,
    convertKeyPem := fun _ => "conv-key.pem".toList }

/-- Does the factory fail with the configuration-error kind (`SyntaxError`)? -/
def isConfigError (r : Except FactoryError (Option ReaderHalf × Option WriterHalf)) : Bool :=
  match r with
  | .error (.syntaxError _) => true
  | _ => false

theorem parse_url_error_kind (u : CotUrl) (e : FactoryError)
    (h : parse_url u = .error e) : ∃ m, e = .valueError m := by
  unfold parse_url at h
  split at h
  · split at h
    · simp at h
    · split at h <;> simp at h
  · split at h
    · simp at h
    · injection h with h2
      exact ⟨_, h2.symm⟩
  · injection h with h2
    exact ⟨_, h2.symm⟩

theorem create_udp_client_error_kind (u : CotUrl) (e : FactoryError)
    (h : create_udp_client u = .error e) : ∃ m, e = .valueError m := by
  unfold create_udp_client at h
  split at h
  next e2 heq =>
    injection h with h2
    subst h2
    exact parse_url_error_kind u e2 heq
  next hp heq =>
    simp only [] at h
    split at h
    · simp at h
    · split at h
      · injection h with h2
        exact ⟨_, h2.symm⟩
      · simp at h

/-- Failure condition of the amended C4 claim, written from the amended
claim's words: the factory fails with a configuration error exactly when the
descriptor has no "://" separator; or the scheme is unrecognized / builds
neither reader nor writer (including a "log" scheme with an empty hostname);
or, for a tls/ssl scheme, the required client-certificate parameter is absent
or names a non-existent file, or the optional client-key parameter names a
non-existent file. -/
def amendedConfigErrorCases (env : FactoryEnv) (cfg : FactoryConfig) : Bool :=
  match urlparseModel (cfg.cotUrl.getD DEFAULT_COT_URL) with
  | none => true
  | some u =>
    if u.scheme = "tcp".toList then false
    else if u.scheme = "tls".toList ∨ u.scheme = "ssl".toList then
      (match cfg.tlsClientCert with
       | none => true
       | some c => !env.fileExists c) ||
      (match cfg.tlsClientKey with
       | some k => !env.fileExists k
       | none => false)
    else if strContains u.scheme ("udp".toList) then false
    else if strContains u.scheme ("log".toList) then (urlHostname u).isNone
    else if strContains u.scheme ("file".toList) then false
    else true

/-- Side condition for the amended C4 theorem: when the descriptor selects
the tls/ssl branch, `pytak.parse_url` succeeds on the netloc (the branch
calls it before any certificate check, so its `ValueError` would otherwise
pre-empt the configuration checks). -/
def tlsNetlocParses (cfg : FactoryConfig) : Bool :=
  match urlparseModel (cfg.cotUrl.getD DEFAULT_COT_URL) with
  | some u =>
    if u.scheme = "tls".toList ∨ u.scheme = "ssl".toList then
      match parse_url u with
      | .ok _ => true
      | .error _ => false
    else true
  | none => true

/-- C4 (amended): assuming no enrollment credentials are configured and that
the netloc parses on the tls/ssl path, the factory fails with a configuration
error (`SyntaxError`) exactly in the cases of `amendedConfigErrorCases`: no
"://" separator; unrecognized scheme / nothing built (including a "log"
scheme with an empty hostname); or, for tls/ssl, a missing or non-existent
client certificate, or a configured client key naming a non-existent file. -/
theorem factory_config_errors_c4_amended (env : FactoryEnv) (cfg : FactoryConfig)
    (hen : (cfg.enrollmentUsername.isSome && cfg.enrollmentPassword.isSome) = false)
    (hnl : tlsNetlocParses cfg = true) :
    isConfigError (protocol_factory env cfg) = amendedConfigErrorCases env cfg := by
  unfold protocol_factory get_cot_url amendedConfigErrorCases
  unfold tlsNetlocParses at hnl
  cases hu : urlparseModel (cfg.cotUrl.getD DEFAULT_COT_URL) with
  | none => simp only [hu]; rfl
  | some u =>
    rw [hu] at hnl
    simp only [hu]
    split
    · cases hp : parse_url u with
      | error e =>
        obtain ⟨m, rfl⟩ := parse_url_error_kind u e hp
        simp only [hp]
        rfl
      | ok v =>
        simp only [hp]
        rfl
    · split
      · next _ htls =>
        have hnl2 : (if u.scheme = "tls".toList ∨ u.scheme = "ssl".toList then
            (match parse_url u with | .ok _ => true | .error _ => false)
            else true) = true := hnl
        rw [if_pos htls] at hnl2
        unfold create_tls_client get_ssl_ctx
        cases hp : parse_url u with
        | error e =>
          rw [hp] at hnl2
          simp at hnl2
        | ok v =>
          simp only [hp, hen, Bool.false_eq_true, if_false]
          cases hcert : cfg.tlsClientCert with
          | none => simp [isConfigError]
          | some c =>
            cases hex : env.fileExists c with
            | false => simp [isConfigError, hex]
            | true =>
              cases hkey : cfg.tlsClientKey with
              | none =>
                by_cases hp12 : ((['.', 'p', '1', '2'] : Str) <:+ c ∧
                    env.fileExists (env.convertCertPem c) = false ∧
                      env.fileExists (env.convertKeyPem c) = true)
                · simp [isConfigError, hex, hp12]
                · simp [isConfigError, hex, hp12]
              | some k =>
                cases hkex : env.fileExists k with
                | false => simp [isConfigError, hex, hkex]
                | true =>
                  by_cases hp12 : ((['.', 'p', '1', '2'] : Str) <:+ c ∧
                      env.fileExists (env.convertCertPem c) = false ∧
                        env.fileExists (env.convertKeyPem c) = true)
                  · simp [isConfigError, hex, hkex, hp12]
                  · simp [isConfigError, hex, hkex, hp12]
      · split
        · cases hc : create_udp_client u with
          | error e =>
            obtain ⟨m, rfl⟩ := create_udp_client_error_kind u e hc
            simp only [hc]
            rfl
          | ok rw2 =>
            simp only [hc]
            rfl
        · split
          · cases hh : urlHostname u with
            | none => simp only [hh]; rfl
            | some dest =>
              simp only [hh]
              split
              · rfl
              · rfl
          · split
            · rfl
            · rfl

/-- Witness for the amended C4 at the concrete key-missing configuration. -/
theorem factory_config_errors_c4_amended_witness :
    isConfigError (protocol_factory envCertOnly
      { cfgWithUrl ("tls://takserver.example.com:8089".toList) with
        tlsClientCert := some ("cert.pem".toList),
        tlsClientKey := some ("key.pem".toList) }) =
      amendedConfigErrorCases envCertOnly
        { cfgWithUrl ("tls://takserver.example.com:8089".toList) with
          tlsClientCert := some ("cert.pem".toList),
          tlsClientKey := some ("key.pem".toList) } :=
  factory_config_errors_c4_amended envCertOnly
    { cfgWithUrl ("tls://takserver.example.com:8089".toList) with
      tlsClientCert := some ("cert.pem".toList),
      tlsClientKey := some ("key.pem".toList) } (by decide) (by decide)

/-- C4 counterexample: a tls descriptor with a "://" separator, a recognized
scheme, and an existing client certificate still fails with a configuration
error when the optional client key names a non-existent file — a case outside
the claim's list. -/
theorem tls_key_error_c4_counterexample :
    protocol_factory envCertOnly
      { cfgWithUrl ("tls://takserver.example.com:8089".toList) with
        tlsClientCert := some ("cert.pem".toList),
        tlsClientKey := some ("key.pem".toList) } =
      .error (.syntaxError
        ("Resource not found: PYTAK_TLS_CLIENT_KEY=".toList ++ "key.pem".toList)) ∧
    get_cot_url (some ("tls://takserver.example.com:8089".toList)) =
      .ok ⟨"tls".toList, "takserver.example.com:8089".toList⟩ ∧
    envCertOnly.fileExists ("cert.pem".toList) = true := by
  refine ⟨?_, ?_, ?_⟩ <;> decide

/-- Is the factory reader half present? -/
def readerPresent (r : Except FactoryError (Option ReaderHalf × Option WriterHalf)) : Bool :=
  match r with
  | .ok rw => rw.1.isSome
  | .error _ => false

/-- Is the factory writer half present? -/
def writerPresent (r : Except FactoryError (Option ReaderHalf × Option WriterHalf)) : Bool :=
  match r with
  | .ok rw => rw.2.isSome
  | .error _ => false

/-- C5: the reader/writer presence table of the factory on recognized
schemes: tcp and tls/ssl yield both halves; udp yields both; udp+wo yields no
reader and a writer; log yields no reader and a writer.  The file scheme,
however, does not yield a writer: the branch raises `NameError` because
`client_functions.py` never imports `Path` — the missing import contradicts
the documented file sink. -/
theorem factory_scheme_table_c5 :
    readerPresent (protocol_factory envCertOnly
      (cfgWithUrl ("tcp://takserver.example.com:8087".toList))) = true ∧
    writerPresent (protocol_factory envCertOnly
      (cfgWithUrl ("tcp://takserver.example.com:8087".toList))) = true ∧
    readerPresent (protocol_factory envCertAndKey
      { cfgWithUrl ("tls://takserver.example.com:8089".toList) with
        tlsClientCert := some ("cert.pem".toList),
        tlsClientKey := some ("key.pem".toList) }) = true ∧
    writerPresent (protocol_factory envCertAndKey
      { cfgWithUrl ("tls://takserver.example.com:8089".toList) with
        tlsClientCert := some ("cert.pem".toList),
        tlsClientKey := some ("key.pem".toList) }) = true ∧
    readerPresent (protocol_factory envCertAndKey
      { cfgWithUrl ("ssl://takserver.example.com:8089".toList) with
        tlsClientCert := some ("cert.pem".toList) }) = true ∧
    writerPresent (protocol_factory envCertAndKey
      { cfgWithUrl ("ssl://takserver.example.com:8089".toList) with
        tlsClientCert := some ("cert.pem".toList) }) = true ∧
    readerPresent (protocol_factory envCertOnly
      (cfgWithUrl ("udp://192.0.2.1:6969".toList))) = true ∧
    writerPresent (protocol_factory envCertOnly
      (cfgWithUrl ("udp://192.0.2.1:6969".toList))) = true ∧
    readerPresent (protocol_factory envCertOnly
      (cfgWithUrl ("udp+wo://239.2.3.1:6969".toList))) = false ∧
    writerPresent (protocol_factory envCertOnly
      (cfgWithUrl ("udp+wo://239.2.3.1:6969".toList))) = true ∧
    readerPresent (protocol_factory envCertOnly
      (cfgWithUrl ("log://stdout".toList))) = false ∧
    writerPresent (protocol_factory envCertOnly
      (cfgWithUrl ("log://stdout".toList))) = true ∧
    protocol_factory envCertOnly (cfgWithUrl ("file://cot-out.log".toList)) =
      .error (.nameError ("name Path is not defined".toList)) := by
  refine ⟨?_, ?_, ?_, ?_, ?_, ?_, ?_, ?_, ?_, ?_, ?_, ?_, ?_⟩ <;> decide

/-- Lenient `urlparse` shape used when `pytak.parse_url` is handed a raw
string (as `TXWorker.send_data` does with the configured COT_URL): without
"://" nothing is treated as a netloc, and the scheme is the text before the
first ":" when its characters are valid. -/
def urlparseLoose (url : Str) : CotUrl :=
  match urlparseModel url with
  | some u => u
  | none =>
    match splitFirst (':' :: []) url with
    | some p => if validScheme p.1 then ⟨strLower p.1, []⟩ else ⟨[], []⟩
    | none => ⟨[], []⟩

/-- Default protocol selector from `pytak/constants.py` ("0" = XML). -/
def DEFAULT_TAK_PROTO : Nat := 0

/-- Protocol-format state a `Worker.__init__` resolves once at
construction. -/
structure WorkerFlags where
  useProtobuf : Bool
  takProtoWarned : Bool
deriving DecidableEq

/-- Model of the protocol-selector logic of `Worker.__init__`
(`classes.py:91-101`): the effective TAK_PROTO version is the configured one
or the default 0; when it is positive but the optional `takproto` module is
unavailable, a warning is logged (and nothing is raised); `use_protobuf` is
set exactly when the version is positive and the module is available. -/
def workerInit (takProtoCfg : Option Nat) (takprotoAvailable : Bool) : WorkerFlags :=
  let v := takProtoCfg.getD DEFAULT_TAK_PROTO
  { useProtobuf := decide (0 < v) && takprotoAvailable,
    takProtoWarned := decide (0 < v) && !takprotoAvailable }

/-- The two binary encapsulations of `takproto.TAKProtoVer` used here. -/
inductive TAKProtoVer where
  | mesh
  | stream
deriving DecidableEq

/-- Writer capability probed by `send_data`: an object with an async `send`
method (datagram), or one with `write`/`drain`/`flush` (stream). -/
inductive TxSink where
  | datagramSink
  | streamSink
deriving DecidableEq

/-- Observable trace of one `TXWorker.send_data` call: whether the
None-payload warning fired, which wire encapsulation was selected for
transcoding (if any), whether the transcoder failed (falling back to the
original bytes), and the payload handed to the writer (if any). -/
structure SendDataTrace where
  warnedNoneSkip : Bool
  framing : Option TAKProtoVer
  transcodeFailed : Bool
  delivered : Option (TxSink × Payload)
deriving DecidableEq

/-- Model of `TXWorker.send_data` (`classes.py:170-206`): a `None` payload is
dropped with a warning and nothing reaches the writer; with binary framing
active, the destination host is taken from `parse_url` of the configured
COT_URL (or the default), Mesh framing is selected for a multicast host and
Stream framing otherwise, and the payload is transcoded by the external
`takproto.xml2proto` — on its parse error the original bytes are kept; the
result is dispatched to the writer by capability (async `send`, or
`write`/`drain`/`flush`). -/
def send_data (useProtobuf : Bool) (cotUrlCfg : Option Str)
    (xml2proto : Payload → TAKProtoVer → Except Unit Payload) (sink : TxSink)
    (data : Option Payload) : Except FactoryError SendDataTrace :=
  match data with
  | none =>
    .ok { warnedNoneSkip := true, framing := none, transcodeFailed := false, delivered := none }
  | some d =>
    if useProtobuf then
      match parse_url (urlparseLoose (cotUrlCfg.getD DEFAULT_COT_URL)) with
      | .error e => .error e
      | .ok hp =>
        let proto := if hostIsMulticast hp.1 then TAKProtoVer.mesh else TAKProtoVer.stream
        match xml2proto d proto with
        | .ok d2 =>
          .ok { warnedNoneSkip := false, framing := some proto, transcodeFailed := false,
                delivered := some (sink, d2) }
        | .error _ =>
          .ok { warnedNoneSkip := false, framing := some proto, transcodeFailed := true,
                delivered := some (sink, d) }
    else
      .ok { warnedNoneSkip := false, framing := none, transcodeFailed := false,
            delivered := some (sink, d) }

/-- Model of the decode step of `RXWorker.readcot` (`classes.py:245-248`):
with binary framing active, `takproto.parse_proto` is tried and its result
used unless it signals failure (-1, modelled as `none`); without it the frame
passes through undecoded. -/
def readcotDecode (useProtobuf : Bool) (parseProto : Payload → Option Payload)
    (cot : Payload) : Payload :=
  if useProtobuf then
    match parseProto cot with
    | some v => v
    | none => cot
  else cot

/-- A transcoder that passes bytes through, used to instantiate witnesses. -/
def anyCodec : Payload → TAKProtoVer → Except Unit Payload := fun d _ => .ok d

/-- Wire encapsulation recorded by a `send_data` trace. -/
def framingOf (r : Except FactoryError SendDataTrace) : Option TAKProtoVer :=
  match r with
  | .ok t => t.framing
  | .error _ => none

/-- C6: with binary framing active, the TX send path selects the wire
encapsulation from the destination host extracted by `parse_url` from the
configured COT_URL: a host parsing as a multicast IP literal selects Mesh
framing; a host parsing as a non-multicast IP literal selects Stream framing;
a host that is not an IP literal (a DNS name) selects Stream framing. -/
theorem tx_framing_selection_c6 (raw host : Str) (port : Nat)
    (codec : Payload → TAKProtoVer → Except Unit Payload) (sink : TxSink) (d : Payload)
    (hp : parse_url (urlparseLoose raw) = .ok (host, port)) :
    (hostIsMulticast host = true →
      framingOf (send_data true (some raw) codec sink (some d)) = some .mesh) ∧
    ((parseIPv4 host).isSome = true → hostIsMulticast host = false →
      framingOf (send_data true (some raw) codec sink (some d)) = some .stream) ∧
    (parseIPv4 host = none →
      framingOf (send_data true (some raw) codec sink (some d)) = some .stream) := by
  have hsel : ∀ proto : TAKProtoVer,
      framingOf (match codec d proto with
        | .ok d2 =>
          Except.ok { warnedNoneSkip := false, framing := some proto, transcodeFailed := false,
                      delivered := some (sink, d2) }
        | .error _ =>
          Except.ok { warnedNoneSkip := false, framing := some proto, transcodeFailed := true,
                      delivered := some (sink, d) }) = some proto := by
    intro proto
    cases hc : codec d proto <;> simp [framingOf]
  refine ⟨fun hm => ?_, fun _ hm => ?_, fun hn => ?_⟩
  · simp only [send_data, Option.getD_some, hp, hm, if_true]
    exact hsel .mesh
  · simp only [send_data, Option.getD_some, hp, hm, Bool.false_eq_true, if_false]
    exact hsel .stream
  · have hm : hostIsMulticast host = false := by
      simp [hostIsMulticast, hn]
    simp only [send_data, Option.getD_some, hp, hm, Bool.false_eq_true, if_false]
    exact hsel .stream

/-- Witness for C6 at hosts 239.2.3.1 (multicast literal), 192.0.2.1
(unicast literal), and takserver.example.com (DNS name). -/
theorem tx_framing_selection_c6_witness :
    framingOf (send_data true (some ("udp://239.2.3.1:6969".toList)) anyCodec
      .datagramSink (some [60])) = some .mesh ∧
    framingOf (send_data true (some ("tcp://192.0.2.1:8087".toList)) anyCodec
      .streamSink (some [60])) = some .stream ∧
    framingOf (send_data true (some ("tls://takserver.example.com:8089".toList)) anyCodec
      .streamSink (some [60])) = some .stream := by
  refine ⟨?_, ?_, ?_⟩
  · exact (tx_framing_selection_c6 ("udp://239.2.3.1:6969".toList) ("239.2.3.1".toList)
      6969 anyCodec .datagramSink [60] (by decide)).1 (by decide)
  · exact (tx_framing_selection_c6 ("tcp://192.0.2.1:8087".toList) ("192.0.2.1".toList)
      8087 anyCodec .streamSink [60] (by decide)).2.1 (by decide) (by decide)
  · exact (tx_framing_selection_c6 ("tls://takserver.example.com:8089".toList)
      ("takserver.example.com".toList) 8089 anyCodec .streamSink [60] (by decide)).2.2
      (by decide)

/-- C8 counterexample: `send_data` only tests `data is None`, so the empty
(zero-length but non-nil) payload is not dropped: it reaches the writer with
no warning, contradicting the claim that every nil-or-empty payload is
dropped and never written. -/
theorem tx_empty_payload_sent_c8_counterexample :
    send_data false (some ("tcp://takserver.example.com:8087".toList)) anyCodec
      .streamSink (some []) =
      .ok { warnedNoneSkip := false, framing := none, transcodeFailed := false,
            delivered := some (.streamSink, []) } := by
  rfl

/-- C8 (amended): a nil (`None`) payload is dropped with a warning and
nothing reaches the writer; every non-nil payload — including the empty one —
is handed to the writer without the warning. -/
theorem tx_none_dropped_c8 (useProtobuf : Bool) (cotUrlCfg : Option Str)
    (codec : Payload → TAKProtoVer → Except Unit Payload) (sink : TxSink) :
    send_data useProtobuf cotUrlCfg codec sink none =
      .ok { warnedNoneSkip := true, framing := none, transcodeFailed := false,
            delivered := none } ∧
    (∀ d tr, send_data useProtobuf cotUrlCfg codec sink (some d) = .ok tr →
      tr.delivered.isSome = true ∧ tr.warnedNoneSkip = false) := by
  refine ⟨rfl, fun d tr htr => ?_⟩
  unfold send_data at htr
  cases useProtobuf with
  | false =>
    simp at htr
    rw [← htr]
    exact ⟨rfl, rfl⟩
  | true =>
    simp only [if_true] at htr
    cases hp : parse_url (urlparseLoose (cotUrlCfg.getD DEFAULT_COT_URL)) with
    | error e =>
      rw [hp] at htr
      simp at htr
    | ok v =>
      rw [hp] at htr
      simp only [] at htr
      cases hc : codec d (if hostIsMulticast v.1 then TAKProtoVer.mesh else TAKProtoVer.stream) with
      | ok d2 =>
        rw [hc] at htr
        simp at htr
        rw [← htr]
        exact ⟨rfl, rfl⟩
      | error u =>
        rw [hc] at htr
        simp at htr
        rw [← htr]
        exact ⟨rfl, rfl⟩

/-- Witness for the amended C8: the nil case and the delivered-trace of an
empty payload at a concrete configuration. -/
theorem tx_none_dropped_c8_witness :
    send_data false (some ("tcp://takserver.example.com:8087".toList)) anyCodec
      .streamSink none =
      .ok { warnedNoneSkip := true, framing := none, transcodeFailed := false,
            delivered := none } ∧
    ({ warnedNoneSkip := false, framing := none, transcodeFailed := false,
       delivered := some (.streamSink, ([] : Payload)) } : SendDataTrace).delivered.isSome
      = true := by
  refine ⟨(tx_none_dropped_c8 false (some ("tcp://takserver.example.com:8087".toList))
    anyCodec .streamSink).1, ?_⟩
  exact ((tx_none_dropped_c8 false (some ("tcp://takserver.example.com:8087".toList))
    anyCodec .streamSink).2 [] _ rfl).1

/-- C10: a Worker constructed with a positive TAK_PROTO selector while the
binary codec module is unavailable: construction succeeds (the model is a
total function — nothing is raised) with only a warning, `use_protobuf` is
false, every subsequent TX payload is sent untranscoded with no framing
selected, and every RX frame is delivered undecoded. -/
theorem missing_takproto_soft_fallback_c10 (v : Nat) (hv : 0 < v) :
    (workerInit (some v) false).useProtobuf = false ∧
    (workerInit (some v) false).takProtoWarned = true ∧
    (∀ (cotUrlCfg : Option Str) (codec : Payload → TAKProtoVer → Except Unit Payload)
        (sink : TxSink) (d : Payload),
      send_data (workerInit (some v) false).useProtobuf cotUrlCfg codec sink (some d) =
        .ok { warnedNoneSkip := false, framing := none, transcodeFailed := false,
              delivered := some (sink, d) }) ∧
    (∀ (parseProto : Payload → Option Payload) (frame : Payload),
      readcotDecode (workerInit (some v) false).useProtobuf parseProto frame = frame) := by
  have hu : (workerInit (some v) false).useProtobuf = false := by
    simp [workerInit]
  have hw : (workerInit (some v) false).takProtoWarned = true := by
    simp [workerInit, hv]
  refine ⟨hu, hw, fun cotUrlCfg codec sink d => ?_, fun parseProto frame => ?_⟩
  · rw [hu]
    rfl
  · rw [hu]
    rfl

/-- Witness for C10 at TAK_PROTO = 1. -/
theorem missing_takproto_soft_fallback_c10_witness :
    (workerInit (some 1) false).useProtobuf = false ∧
    (workerInit (some 1) false).takProtoWarned = true ∧
    (∀ (cotUrlCfg : Option Str) (codec : Payload → TAKProtoVer → Except Unit Payload)
        (sink : TxSink) (d : Payload),
      send_data (workerInit (some 1) false).useProtobuf cotUrlCfg codec sink (some d) =
        .ok { warnedNoneSkip := false, framing := none, transcodeFailed := false,
              delivered := some (sink, d) }) ∧
    (∀ (parseProto : Payload → Option Payload) (frame : Payload),
      readcotDecode (workerInit (some 1) false).useProtobuf parseProto frame = frame) :=
  missing_takproto_soft_fallback_c10 1 (by decide)
